import Mathlib

/-!
Shallow embedding of `src/gym_auv/environment.py` (class `BaseShipScenario`).

The environment's external collaborators (the vessel dynamics `AUV2D`, the
path object, the scenario-specific `generate` / `observe` / `step_reward`
extension points and the numpy library) are not part of the source file:
their per-call outputs are passed to the embedded `step` and `reset`
functions as explicit inputs, and the state the environment itself stores
is an explicit record.  Machine floats are modelled by exact rationals
together with explicit `nan` / `inf` markers, so that the `np.isnan`
check of lines 185 and 241 and the float division of line 188 can be
stated faithfully.
-/

namespace GymAuv

/-- Model of a numpy floating-point value as it appears in an observation
vector or in the `info` map: either a finite value (modelled exactly as a
rational) or one of the non-finite IEEE-754 values `nan`, `+inf`, `-inf`. -/
inductive FloatVal where
  | nan : FloatVal
  | inf : FloatVal
  | ninf : FloatVal
  | val : ℚ → FloatVal
deriving DecidableEq

/-- `np.isnan` on a single value: true exactly on `nan` (infinities are NOT
NaN for numpy). -/
def FloatVal.isnan : FloatVal → Bool
  | .nan => true
  | _ => false

/-- A value is finite exactly when it is an ordinary number. -/
def FloatVal.isfinite : FloatVal → Bool
  | .val _ => true
  | _ => false

/-- `np.isnan(obs).any()` over an observation vector. -/
def isnanAny (obs : List FloatVal) : Bool := obs.any FloatVal.isnan

/-- True when the vector contains at least one non-finite entry
(`nan`, `+inf` or `-inf`). -/
def hasNonFinite (obs : List FloatVal) : Bool := obs.any (fun x => !x.isfinite)

/-- IEEE-754-style division of two finite values, as numpy performs it for
`prog/self.path.length` on line 188: a zero divisor yields `nan` (for a zero
dividend) or a signed infinity, never a finite number. -/
def floatDiv (a b : ℚ) : FloatVal :=
  if b = 0 then (if a = 0 then FloatVal.nan else if 0 < a then FloatVal.inf else FloatVal.ninf)
  else FloatVal.val (a / b)

/-- The configuration entries of `env_config` that `BaseShipScenario`
reads (`self.config[...]`, lines 84-85, 164-167, 179-182, 194). -/
structure Config where
  t_step_size : ℚ
  max_closest_point_distance : ℚ
  max_closest_point_heading_error : ℚ
  min_la_dist : ℚ
  max_timestemps : ℕ
  n_sectors : ℕ
  n_sensors_per_sector : ℕ
deriving DecidableEq

/-- Modelled from the spec: the vessel collaborator (`gym_auv.objects.auv.AUV2D`,
not under `src/`) exposes `position`, `course`, `speed` and `path_taken`;
`vessel.step(action)` replaces this state with a new one. -/
structure VesselState where
  position : ℚ × ℚ
  course : ℚ
  speed : ℚ
  path_taken : List (ℚ × ℚ)
deriving DecidableEq

/-- The outputs of the external collaborator calls made during one `step`
(lines 159-164, 184, 187 of the source), passed as explicit inputs:

* `new_vessel` — the vessel state after `self.vessel.step(action)` (line 159);
* `closest_point_distance`, `closest_arclength` — from
  `self.path.get_closest_point_distance(self.vessel.position)` (line 161);
* `closest_point_heading_error` — the already-wrapped value
  `geom.princip(self.path.get_direction(closest_arclength) - self.vessel.course)`
  (line 162);
* `cos_course_path_angle` — the value
  `np.cos(geom.princip(self.path.get_direction(self.max_path_prog) - self.vessel.course))`
  (lines 163-164);
* `obs` — the vector returned by `self.observe()` (line 184);
* `reward_done`, `reward_value` — the first two outputs of
  `self.step_reward()` (line 187). -/
structure StepInputs where
  action : ℚ × ℚ
  new_vessel : VesselState
  closest_point_distance : ℚ
  closest_arclength : ℚ
  closest_point_heading_error : ℚ
  cos_course_path_angle : ℚ
  obs : List FloatVal
  reward_done : Bool
  reward_value : ℚ
deriving DecidableEq

/-- The outputs of the external collaborator calls made during one `reset`:
the vessel and path produced by `self.generate()` (line 239, the path is
kept as its length, the only attribute the base class reads besides the
collaborator methods) and the vector returned by `self.observe()` (line 240). -/
structure ResetInputs where
  gen_vessel : VesselState
  gen_path_length : ℚ
  obs : List FloatVal
deriving DecidableEq

/-- The mutable attributes of `BaseShipScenario` that the base class itself
reads or writes in `step` and `reset`.  `path_length` stands for
`self.path.length` (the path is immutable within an episode); the
memory snapshot (lines 209-213), `past_errors` dictionary and rng
seeding (lines 236-237) concern the plotting and seeding collaborators
and carry no claim, so they are not modelled. -/
structure EnvState where
  vessel : VesselState
  path_length : ℚ
  cumulative_reward : ℚ
  max_path_prog : ℚ
  target_arclength : ℚ
  path_prog : List ℚ
  past_actions : List (ℚ × ℚ)
  past_obs : List (List FloatVal)
  past_rewards : List ℚ
  look_ahead_arclength : Option ℚ
  t_step : ℕ
  total_t_steps : ℕ
  episode : ℕ
deriving DecidableEq

/-- Result of one `step` call: either a normal return
`(obs, step_reward, done, info)` (line 197; of the `info` dictionary only
the `progress` entry set on line 188 is modelled), or the
`AssertionError` raised on line 185, carrying the offending observation
vector that the assertion message displays. -/
inductive StepOutcome where
  | ok : List FloatVal → ℚ → Bool → FloatVal → StepOutcome
  | nanAbort : List FloatVal → StepOutcome
deriving DecidableEq

/-- Result of one `reset` call: the returned initial observation (line 244)
or the `AssertionError` of line 241. -/
inductive ResetOutcome where
  | ok : List FloatVal → ResetOutcome
  | nanAbort : List FloatVal → ResetOutcome
deriving DecidableEq

/-- Lines 161-171: the new progress value.  `dprog` is
`np.cos(course_path_angle) * self.vessel.speed * self.config["t_step_size"]`
(line 164; the vessel has already been stepped, so its speed is
`new_vessel.speed`).  If the closest-point distance or the absolute wrapped
closest-point heading error is below its configured threshold (lines
165-168) the closest-point arclength is trusted directly (line 169);
otherwise the forward-projected estimate is clamped to
`[0, path.length]` (line 171). -/
def computeProg (cfg : Config) (ins : StepInputs) (max_path_prog path_length : ℚ) : ℚ :=
  let dprog := ins.cos_course_path_angle * ins.new_vessel.speed * cfg.t_step_size
  if ins.closest_point_distance < cfg.max_closest_point_distance ∨
     |ins.closest_point_heading_error| < cfg.max_closest_point_heading_error then
    ins.closest_arclength
  else
    min (max 0 (max_path_prog + dprog)) path_length

/-- Lines 158-197 of the source, `BaseShipScenario.step`, with the
collaborator outputs supplied in `ins`.  Returns the attribute state the
object holds when the call ends together with the call's outcome; on the
line-185 assertion failure the state reflects every mutation already
performed (lines 158-182), and lines 186-196 do not run. -/
def step (cfg : Config) (ins : StepInputs) (s : EnvState) : EnvState × StepOutcome :=
  let pastActs := s.past_actions ++ [ins.action]
  let prog := computeProg cfg ins s.max_path_prog s.path_length
  let newMax := if prog > s.max_path_prog then prog else s.max_path_prog
  let target0 :=
    match s.look_ahead_arclength with
    | none => newMax + cfg.min_la_dist
    | some la => max la (newMax + cfg.min_la_dist)
  let target := min target0 s.path_length
  let s4 : EnvState :=
    { s with
      vessel := ins.new_vessel,
      past_actions := pastActs,
      max_path_prog := newMax,
      path_prog := s.path_prog ++ [prog],
      target_arclength := target }
  if isnanAny ins.obs then (s4, StepOutcome.nanAbort ins.obs)
  else
    let sFinal : EnvState :=
      { s4 with
        past_obs := s4.past_obs ++ [ins.obs],
        past_rewards := s4.past_rewards ++ [ins.reward_value],
        cumulative_reward := s4.cumulative_reward + ins.reward_value,
        t_step := s4.t_step + 1,
        total_t_steps := s4.total_t_steps + 1 }
    let done := if sFinal.t_step > cfg.max_timestemps then true else ins.reward_done
    (sFinal, StepOutcome.ok ins.obs ins.reward_value done (floatDiv prog s.path_length))

/-- Lines 199-244 of the source, `BaseShipScenario.reset`, with the
collaborator outputs supplied in `ins`.  Lines 215-234 clear the
per-episode bookkeeping (in particular `max_path_prog := 0`,
`target_arclength := 0` and `past_actions := [[0, 0]]`); on the line-241
assertion failure `past_obs` is not set and the episode counter is not
incremented. -/
def reset (ins : ResetInputs) (s : EnvState) : EnvState × ResetOutcome :=
  let s1 : EnvState :=
    { s with
      vessel := ins.gen_vessel,
      path_length := ins.gen_path_length,
      cumulative_reward := 0,
      max_path_prog := 0,
      target_arclength := 0,
      path_prog := [],
      past_obs := [],
      past_actions := [((0 : ℚ), (0 : ℚ))],
      past_rewards := [],
      look_ahead_arclength := none,
      t_step := 0 }
  if isnanAny ins.obs then (s1, ResetOutcome.nanAbort ins.obs)
  else ({ s1 with past_obs := [ins.obs], episode := s.episode + 1 }, ResetOutcome.ok ins.obs)

/-- The successor state of a step that returns normally; `none` when the
step aborts on the NaN assertion. -/
def stepNext (cfg : Config) (ins : StepInputs) (s : EnvState) : Option EnvState :=
  match step cfg ins s with
  | (s1, StepOutcome.ok _ _ _ _) => some s1
  | (_, StepOutcome.nanAbort _) => none

/-- Iterated steps within one episode, each with its own collaborator
outputs; `none` as soon as one step aborts. -/
def runSteps (cfg : Config) : List StepInputs → EnvState → Option EnvState
  | [], s => some s
  | ins :: rest, s =>
    match stepNext cfg ins s with
    | some s1 => runSteps cfg rest s1
    | none => none

/-- `self.nstates` (line 83). -/
def nstates : ℕ := 7

/-- `self.nsensors = self.config["n_sensors_per_sector"]*self.config["n_sectors"]`
(line 85). -/
def nsensors (cfg : Config) : ℕ := cfg.n_sensors_per_sector * cfg.n_sectors

/-- The i-th entry of the line-86 comprehension
`-np.pi/2 + (i + 1)/(self.nsensors + 1)*np.pi`, represented exactly by its
rational coefficient of π: the angle itself is `sensor_angle_coeff n i * π`. -/
def sensor_angle_coeff (n : ℕ) (i : ℕ) : ℚ :=
  -(1 / 2) + ((i : ℚ) + 1) / ((n : ℚ) + 1)

/-- `self.sensor_angles` (line 86), as coefficients of π. -/
def sensor_angles (cfg : Config) : List ℚ :=
  (List.range (nsensors cfg)).map (sensor_angle_coeff (nsensors cfg))

/-- Lines 125-128: `low_obs = [-1]*nobservations` then
`low_obs[self.nstates - 1] = -10000`, with
`nobservations = self.nstates + self.nsectors*2` (line 125). -/
def low_obs (nsectors : ℕ) : List ℤ :=
  (List.replicate (nstates + nsectors * 2) (-1)).set (nstates - 1) (-10000)

/-- Lines 125-129: `high_obs = [1]*nobservations` then
`high_obs[self.nstates - 1] = 10000`. -/
def high_obs (nsectors : ℕ) : List ℤ :=
  (List.replicate (nstates + nsectors * 2) 1).set (nstates - 1) 10000

/-- Modelled from the spec: the termination check of the reward shaper
(`step_reward` of the concrete scenarios, declared abstract on line 256 and
not under `src/`): the four conditions are checked in precedence order and
the first match wins; the result names which condition fired. -/
def specTermCheck (timestepExceeded collision pathEnd corridorExceeded : Bool) : Option ℕ :=
  if timestepExceeded then some 1
  else if collision then some 2
  else if pathEnd then some 3
  else if corridorExceeded then some 4
  else none

/-! Concrete sample data used by witnesses and counterexamples. -/

/-- A sample configuration. -/
def cfg0 : Config :=
  { t_step_size := 1,
    max_closest_point_distance := 1,
    max_closest_point_heading_error := 1 / 2,
    min_la_dist := 1,
    max_timestemps := 10,
    n_sectors := 2,
    n_sensors_per_sector := 2 }

/-- A sample vessel state. -/
def vessel0 : VesselState :=
  { position := (0, 0), course := 0, speed := 1, path_taken := [] }

/-- A sample mid-episode environment state with a length-5 path. -/
def envA : EnvState :=
  { vessel := vessel0,
    path_length := 5,
    cumulative_reward := 0,
    max_path_prog := 0,
    target_arclength := 1,
    path_prog := [],
    past_actions := [(0, 0)],
    past_obs := [[FloatVal.val 0]],
    past_rewards := [],
    look_ahead_arclength := none,
    t_step := 0,
    total_t_steps := 0,
    episode := 1 }

/-- Like `envA` but with a degenerate zero-length path. -/
def envD : EnvState :=
  { envA with path_length := 0 }

/-- Sample step inputs with a valid observation; the vessel sits on the
path (closest-point distance 0, below the threshold). -/
def insOk0 : StepInputs :=
  { action := (1, 0),
    new_vessel := vessel0,
    closest_point_distance := 0,
    closest_arclength := 1,
    closest_point_heading_error := 0,
    cos_course_path_angle := 1,
    obs := [FloatVal.val 0],
    reward_done := false,
    reward_value := 0 }

/-- Sample step inputs whose observation contains a NaN entry. -/
def insNan0 : StepInputs :=
  { insOk0 with obs := [FloatVal.nan] }

/-- Sample step inputs whose observation contains a positive infinity
(non-finite but not NaN). -/
def insInf0 : StepInputs :=
  { insOk0 with obs := [FloatVal.inf], closest_arclength := 0 }

/-- Sample step inputs for which both closest-point criteria fail, so the
forward-projected branch is taken. -/
def insFar0 : StepInputs :=
  { insOk0 with
    closest_point_distance := 5,
    closest_point_heading_error := 2,
    closest_arclength := 0 }

/-- Sample reset inputs with a valid observation. -/
def rinsA : ResetInputs :=
  { gen_vessel := vessel0, gen_path_length := 5, obs := [FloatVal.val 0] }

/-- The state `envA` reaches after one successful step. -/
def stepA1 : EnvState := (step cfg0 insOk0 envA).1

/-- The state after resetting from `envA`. -/
def resetA : EnvState := (reset rinsA envA).1

/-- The state `resetA` reaches after one successful step. -/
def runA1 : EnvState := (step cfg0 insOk0 resetA).1

/-! Helper lemmas characterising the state a `step` or `reset` call leaves
behind, in both the normal and the aborting branch. -/

lemma ite_gt_eq_max (m p : ℚ) : (if p > m then p else m) = max m p := by
  rcases le_or_lt p m with h | h
  · rw [if_neg (not_lt.mpr h), max_eq_left h]
  · rw [if_pos h, max_eq_right h.le]

lemma step_fst_path_prog (cfg : Config) (ins : StepInputs) (s : EnvState) :
    (step cfg ins s).1.path_prog =
      s.path_prog ++ [computeProg cfg ins s.max_path_prog s.path_length] := by
  cases h : isnanAny ins.obs <;> simp [step, h]

lemma step_fst_past_actions (cfg : Config) (ins : StepInputs) (s : EnvState) :
    (step cfg ins s).1.past_actions = s.past_actions ++ [ins.action] := by
  cases h : isnanAny ins.obs <;> simp [step, h]

lemma step_fst_vessel (cfg : Config) (ins : StepInputs) (s : EnvState) :
    (step cfg ins s).1.vessel = ins.new_vessel := by
  cases h : isnanAny ins.obs <;> simp [step, h]

lemma step_fst_path_length (cfg : Config) (ins : StepInputs) (s : EnvState) :
    (step cfg ins s).1.path_length = s.path_length := by
  cases h : isnanAny ins.obs <;> simp [step, h]

lemma step_fst_max_path_prog (cfg : Config) (ins : StepInputs) (s : EnvState) :
    (step cfg ins s).1.max_path_prog =
      max s.max_path_prog (computeProg cfg ins s.max_path_prog s.path_length) := by
  cases h : isnanAny ins.obs <;> simp [step, h, ite_gt_eq_max]

lemma step_fst_target_arclength (cfg : Config) (ins : StepInputs) (s : EnvState) :
    (step cfg ins s).1.target_arclength =
      min (s.look_ahead_arclength.elim
            ((step cfg ins s).1.max_path_prog + cfg.min_la_dist)
            (fun la => max la ((step cfg ins s).1.max_path_prog + cfg.min_la_dist)))
        s.path_length := by
  rw [step_fst_max_path_prog]
  cases hla : s.look_ahead_arclength <;>
    cases h : isnanAny ins.obs <;>
      simp [step, h, hla, ite_gt_eq_max]

lemma step_fst_max_mono (cfg : Config) (ins : StepInputs) (s : EnvState) :
    s.max_path_prog ≤ (step cfg ins s).1.max_path_prog := by
  rw [step_fst_max_path_prog]
  exact le_max_left _ _

lemma step_snd_of_nan (cfg : Config) (ins : StepInputs) (s : EnvState)
    (h : isnanAny ins.obs = true) :
    (step cfg ins s).2 = StepOutcome.nanAbort ins.obs := by
  simp [step, h]

lemma step_fst_past_obs_of_nan (cfg : Config) (ins : StepInputs) (s : EnvState)
    (h : isnanAny ins.obs = true) :
    (step cfg ins s).1.past_obs = s.past_obs := by
  simp [step, h]

lemma step_snd_of_ok (cfg : Config) (ins : StepInputs) (s : EnvState)
    (h : isnanAny ins.obs = false) :
    (step cfg ins s).2 =
      StepOutcome.ok ins.obs ins.reward_value
        (if s.t_step + 1 > cfg.max_timestemps then true else ins.reward_done)
        (floatDiv (computeProg cfg ins s.max_path_prog s.path_length) s.path_length) := by
  simp [step, h]

lemma stepNext_eq (cfg : Config) (ins : StepInputs) (s t : EnvState)
    (h : stepNext cfg ins s = some t) : t = (step cfg ins s).1 := by
  unfold stepNext at h
  rcases hstep : step cfg ins s with ⟨s1, o⟩
  rw [hstep] at h
  cases o with
  | ok a b c d =>
    simp only [] at h
    exact (Option.some.inj h).symm
  | nanAbort a => simp at h

lemma runSteps_max_mono (cfg : Config) :
    ∀ (inss : List StepInputs) (s t : EnvState),
      runSteps cfg inss s = some t → s.max_path_prog ≤ t.max_path_prog := by
  intro inss
  induction inss with
  | nil =>
    intro s t h
    rw [Option.some.inj h]
  | cons ins rest ih =>
    intro s t h
    unfold runSteps at h
    rcases hn : stepNext cfg ins s with _ | s1
    · rw [hn] at h
      exact absurd h (by simp)
    · rw [hn] at h
      have h1 : s1 = (step cfg ins s).1 := stepNext_eq cfg ins s s1 hn
      calc s.max_path_prog ≤ s1.max_path_prog := h1 ▸ step_fst_max_mono cfg ins s
        _ ≤ t.max_path_prog := ih s1 t h

lemma runSteps_past_actions (cfg : Config) :
    ∀ (inss : List StepInputs) (s t : EnvState),
      runSteps cfg inss s = some t →
        t.past_actions.length = s.past_actions.length + inss.length ∧
          (s.past_actions ≠ [] → t.past_actions.head? = s.past_actions.head?) := by
  intro inss
  induction inss with
  | nil =>
    intro s t h
    rw [Option.some.inj h]
    exact ⟨rfl, fun _ => rfl⟩
  | cons ins rest ih =>
    intro s t h
    unfold runSteps at h
    rcases hn : stepNext cfg ins s with _ | s1
    · rw [hn] at h
      exact absurd h (by simp)
    · rw [hn] at h
      have h1 : s1 = (step cfg ins s).1 := stepNext_eq cfg ins s s1 hn
      have hpa : s1.past_actions = s.past_actions ++ [ins.action] := by
        rw [h1]; exact step_fst_past_actions cfg ins s
      rcases ih s1 t h with ⟨hlen, hhead⟩
      constructor
      · rw [hlen, hpa, List.length_append, List.length_singleton, List.length_cons]
        omega
      · intro hne
        have hne1 : s1.past_actions ≠ [] := by
          rw [hpa]
          exact fun hc => List.append_ne_nil_of_right_ne_nil _ (by simp) hc
        rw [hhead hne1, hpa]
        cases hla : s.past_actions with
        | nil => exact absurd hla hne
        | cons a l => rfl

lemma reset_fst_max_path_prog (rins : ResetInputs) (s : EnvState) :
    (reset rins s).1.max_path_prog = 0 := by
  cases h : isnanAny rins.obs <;> simp [reset, h]

lemma reset_fst_target_arclength (rins : ResetInputs) (s : EnvState) :
    (reset rins s).1.target_arclength = 0 := by
  cases h : isnanAny rins.obs <;> simp [reset, h]

lemma reset_fst_past_actions (rins : ResetInputs) (s : EnvState) :
    (reset rins s).1.past_actions = [(0, 0)] := by
  cases h : isnanAny rins.obs <;> simp [reset, h]

lemma reset_snd_of_nan (rins : ResetInputs) (s : EnvState)
    (h : isnanAny rins.obs = true) :
    (reset rins s).2 = ResetOutcome.nanAbort rins.obs := by
  simp [reset, h]

lemma reset_snd_of_ok (rins : ResetInputs) (s : EnvState)
    (h : isnanAny rins.obs = false) :
    (reset rins s).2 = ResetOutcome.ok rins.obs := by
  simp [reset, h]

/-- C1: for every call to `step`, the new progress value recorded in
`path_prog` is computed by the dual-criterion switch: if the closest-point
distance is below `max_closest_point_distance`, or the absolute wrapped
closest-point heading error is below `max_closest_point_heading_error`,
progress equals the closest-point arclength; otherwise it equals the
forward-projected estimate
`previous_max_progress + cos(course_path_angle) * speed * t_step_size`
clamped to `[0, path.length]`. -/
theorem progress_dual_criterion (cfg : Config) (ins : StepInputs) (s : EnvState) :
    (step cfg ins s).1.path_prog = s.path_prog ++
      [if ins.closest_point_distance < cfg.max_closest_point_distance ∨
          |ins.closest_point_heading_error| < cfg.max_closest_point_heading_error then
        ins.closest_arclength
      else
        min (max 0 (s.max_path_prog +
            ins.cos_course_path_angle * ins.new_vessel.speed * cfg.t_step_size))
          s.path_length] := by
  rw [step_fst_path_prog]
  rfl

/-- C2: within one episode `max_path_prog` never decreases: it is monotone
over a single `step`, monotone over any sequence of successful steps, and
`reset` sets it to `0`. -/
theorem max_path_prog_monotone (cfg : Config) (ins : StepInputs)
    (inss : List StepInputs) (rins : ResetInputs) (s t u : EnvState)
    (hrun : runSteps cfg inss s = some t) :
    s.max_path_prog ≤ (step cfg ins s).1.max_path_prog
    ∧ s.max_path_prog ≤ t.max_path_prog
    ∧ (reset rins u).1.max_path_prog = 0 :=
  ⟨step_fst_max_mono cfg ins s, runSteps_max_mono cfg inss s t hrun,
    reset_fst_max_path_prog rins u⟩

/-- Witness for the C2 theorem at the concrete sample data. -/
theorem max_path_prog_monotone_wit :
    runSteps cfg0 [insOk0] envA = some stepA1
    ∧ (envA.max_path_prog ≤ (step cfg0 insOk0 envA).1.max_path_prog
       ∧ envA.max_path_prog ≤ stepA1.max_path_prog
       ∧ (reset rinsA envA).1.max_path_prog = 0) :=
  ⟨by with_unfolding_all rfl,
    max_path_prog_monotone cfg0 insOk0 [insOk0] rinsA envA stepA1 envA
      (by with_unfolding_all rfl)⟩

/-- C9: immediately after `reset` the past-actions history is exactly the
single fabricated zero action `[[0, 0]]`; each successful step appends one
row, so after `t` steps the history has `t + 1` rows and its first row is
still `[0, 0]`. -/
theorem past_actions_history (cfg : Config) (rins : ResetInputs) (u t : EnvState)
    (inss : List StepInputs)
    (hrun : runSteps cfg inss (reset rins u).1 = some t) :
    (reset rins u).1.past_actions = [(0, 0)]
    ∧ t.past_actions.length = inss.length + 1
    ∧ t.past_actions.head? = some (0, 0) := by
  have hres := reset_fst_past_actions rins u
  rcases runSteps_past_actions cfg inss (reset rins u).1 t hrun with ⟨hlen, hhead⟩
  refine ⟨hres, ?_, ?_⟩
  · rw [hlen, hres]
    simp only [List.length_singleton]
    omega
  · rw [hhead (by rw [hres]; simp), hres]
    rfl

/-- Witness for the C9 theorem at the concrete sample data. -/
theorem past_actions_history_wit :
    runSteps cfg0 [insOk0] (reset rinsA envA).1 = some runA1
    ∧ ((reset rinsA envA).1.past_actions = [(0, 0)]
       ∧ runA1.past_actions.length = [insOk0].length + 1
       ∧ runA1.past_actions.head? = some (0, 0)) :=
  ⟨by with_unfolding_all rfl,
    past_actions_history cfg0 rinsA envA runA1 [insOk0] (by with_unfolding_all rfl)⟩

/-- C10: `step` is not atomic on an invalid observation: when the assembled
observation contains NaN, the call aborts, but the state it leaves behind
already holds the appended action (so the pre-call state is not restored),
the advanced vessel, the updated `max_path_prog`, `path_prog` and
`target_arclength`; only the mutations after the assertion (such as the
`past_obs` append) have not happened. -/
theorem step_not_atomic_on_nan (cfg : Config) (ins : StepInputs) (s : EnvState)
    (h : isnanAny ins.obs = true) :
    (step cfg ins s).2 = StepOutcome.nanAbort ins.obs
    ∧ (step cfg ins s).1.past_actions = s.past_actions ++ [ins.action]
    ∧ (step cfg ins s).1.past_actions ≠ s.past_actions
    ∧ (step cfg ins s).1.vessel = ins.new_vessel
    ∧ (step cfg ins s).1.max_path_prog =
        max s.max_path_prog (computeProg cfg ins s.max_path_prog s.path_length)
    ∧ (step cfg ins s).1.path_prog =
        s.path_prog ++ [computeProg cfg ins s.max_path_prog s.path_length]
    ∧ (step cfg ins s).1.target_arclength =
        min (s.look_ahead_arclength.elim
              ((step cfg ins s).1.max_path_prog + cfg.min_la_dist)
              (fun la => max la ((step cfg ins s).1.max_path_prog + cfg.min_la_dist)))
          s.path_length
    ∧ (step cfg ins s).1.past_obs = s.past_obs := by
  refine ⟨step_snd_of_nan cfg ins s h, step_fst_past_actions cfg ins s, ?_,
    step_fst_vessel cfg ins s, step_fst_max_path_prog cfg ins s,
    step_fst_path_prog cfg ins s, step_fst_target_arclength cfg ins s,
    step_fst_past_obs_of_nan cfg ins s h⟩
  rw [step_fst_past_actions]
  intro hc
  have hlen := congrArg List.length hc
  simp at hlen

/-- Witness for the C10 theorem at the concrete sample data. -/
theorem step_not_atomic_on_nan_wit :
    isnanAny insNan0.obs = true
    ∧ ((step cfg0 insNan0 envA).2 = StepOutcome.nanAbort insNan0.obs
       ∧ (step cfg0 insNan0 envA).1.past_actions = envA.past_actions ++ [insNan0.action]
       ∧ (step cfg0 insNan0 envA).1.past_actions ≠ envA.past_actions
       ∧ (step cfg0 insNan0 envA).1.vessel = insNan0.new_vessel
       ∧ (step cfg0 insNan0 envA).1.max_path_prog =
           max envA.max_path_prog (computeProg cfg0 insNan0 envA.max_path_prog envA.path_length)
       ∧ (step cfg0 insNan0 envA).1.path_prog =
           envA.path_prog ++ [computeProg cfg0 insNan0 envA.max_path_prog envA.path_length]
       ∧ (step cfg0 insNan0 envA).1.target_arclength =
           min (envA.look_ahead_arclength.elim
                 ((step cfg0 insNan0 envA).1.max_path_prog + cfg0.min_la_dist)
                 (fun la => max la ((step cfg0 insNan0 envA).1.max_path_prog + cfg0.min_la_dist)))
             envA.path_length
       ∧ (step cfg0 insNan0 envA).1.past_obs = envA.past_obs) :=
  ⟨by rfl, step_not_atomic_on_nan cfg0 insNan0 envA (by rfl)⟩

/-- C3 counterexample: immediately after a successful `reset` the state is
observable, yet `target_arclength` is `0`, strictly below
`max_path_prog + min_la_dist = 1`, although that sum does not exceed the
path length `5` — refuting the claim that the bound holds at every
observable point including after `reset`. -/
theorem target_arclength_reset_cex :
    (reset rinsA envA).2 = ResetOutcome.ok rinsA.obs
    ∧ resetA.target_arclength < resetA.max_path_prog + cfg0.min_la_dist
    ∧ resetA.max_path_prog + cfg0.min_la_dist ≤ resetA.path_length :=
  ⟨rfl, of_decide_eq_true (by with_unfolding_all rfl),
    of_decide_eq_true (by with_unfolding_all rfl)⟩

/-- C3 amended: after each `step` (with a non-negative `min_la_dist`,
path length, and pre-step `max_path_prog`), `target_arclength` lies in
`[0, path.length]` and is at least `max_path_prog + min_la_dist` unless
that sum exceeds the path length, in which case it equals the path
length; after `reset`, however, `target_arclength` and `max_path_prog`
are both simply `0`, so the lower bound does not hold there. -/
theorem target_arclength_invariant_amended (cfg : Config) (ins : StepInputs)
    (s : EnvState) (rins : ResetInputs) (u : EnvState)
    (hla : 0 ≤ cfg.min_la_dist) (hlen : 0 ≤ s.path_length)
    (hmax : 0 ≤ s.max_path_prog) :
    (0 ≤ (step cfg ins s).1.target_arclength
      ∧ (step cfg ins s).1.target_arclength ≤ s.path_length)
    ∧ ((step cfg ins s).1.max_path_prog + cfg.min_la_dist ≤ s.path_length →
        (step cfg ins s).1.max_path_prog + cfg.min_la_dist ≤
          (step cfg ins s).1.target_arclength)
    ∧ (s.path_length < (step cfg ins s).1.max_path_prog + cfg.min_la_dist →
        (step cfg ins s).1.target_arclength = s.path_length)
    ∧ (reset rins u).1.target_arclength = 0
    ∧ (reset rins u).1.max_path_prog = 0 := by
  have hm : 0 ≤ (step cfg ins s).1.max_path_prog :=
    le_trans hmax (step_fst_max_mono cfg ins s)
  rw [step_fst_target_arclength]
  have htgt0 : (step cfg ins s).1.max_path_prog + cfg.min_la_dist ≤
      s.look_ahead_arclength.elim
        ((step cfg ins s).1.max_path_prog + cfg.min_la_dist)
        (fun la => max la ((step cfg ins s).1.max_path_prog + cfg.min_la_dist)) := by
    cases s.look_ahead_arclength with
    | none => exact le_refl _
    | some la => exact le_max_right _ _
  refine ⟨⟨?_, min_le_right _ _⟩, ?_, ?_,
    reset_fst_target_arclength rins u, reset_fst_max_path_prog rins u⟩
  · exact le_min (le_trans (add_nonneg hm hla) htgt0) hlen
  · intro hle
    exact le_min htgt0 hle
  · intro hlt
    exact min_eq_right (le_trans hlt.le htgt0)

/-- Witness for the C3 amended theorem at the concrete sample data. -/
theorem target_arclength_invariant_wit :
    (0 ≤ cfg0.min_la_dist ∧ 0 ≤ envA.path_length ∧ 0 ≤ envA.max_path_prog)
    ∧ ((0 ≤ (step cfg0 insOk0 envA).1.target_arclength
        ∧ (step cfg0 insOk0 envA).1.target_arclength ≤ envA.path_length)
      ∧ ((step cfg0 insOk0 envA).1.max_path_prog + cfg0.min_la_dist ≤ envA.path_length →
          (step cfg0 insOk0 envA).1.max_path_prog + cfg0.min_la_dist ≤
            (step cfg0 insOk0 envA).1.target_arclength)
      ∧ (envA.path_length < (step cfg0 insOk0 envA).1.max_path_prog + cfg0.min_la_dist →
          (step cfg0 insOk0 envA).1.target_arclength = envA.path_length)
      ∧ (reset rinsA envA).1.target_arclength = 0
      ∧ (reset rinsA envA).1.max_path_prog = 0) :=
  ⟨⟨of_decide_eq_true (by with_unfolding_all rfl),
    of_decide_eq_true (by with_unfolding_all rfl),
    of_decide_eq_true (by with_unfolding_all rfl)⟩,
    target_arclength_invariant_amended cfg0 insOk0 envA rinsA envA
      (of_decide_eq_true (by with_unfolding_all rfl))
      (of_decide_eq_true (by with_unfolding_all rfl))
      (of_decide_eq_true (by with_unfolding_all rfl))⟩

/-- C4 counterexample: an observation containing `+inf` is non-finite, yet
`step` does not abort: the `np.isnan` assertion passes and the call
returns normally with the infinite observation — refuting the claim that
any non-finite value aborts the call and that `step` never returns a
non-finite observation. -/
theorem nonfinite_obs_cex :
    hasNonFinite insInf0.obs = true
    ∧ (step cfg0 insInf0 envA).2 =
        StepOutcome.ok insInf0.obs insInf0.reward_value false (FloatVal.val 0) :=
  ⟨rfl, by with_unfolding_all rfl⟩

/-- C4 amended: `step` and `reset` abort (with the offending vector in the
diagnostic) exactly when the assembled observation contains a NaN value;
infinities are not detected by the `np.isnan` check, so a normally
returned observation is merely NaN-free, not necessarily finite. -/
theorem nan_abort_only_amended (cfg : Config) (ins : StepInputs) (s : EnvState)
    (rins : ResetInputs) (u : EnvState) :
    ((step cfg ins s).2 = StepOutcome.nanAbort ins.obs ↔ isnanAny ins.obs = true)
    ∧ (∀ o r d ip, (step cfg ins s).2 = StepOutcome.ok o r d ip →
        o = ins.obs ∧ isnanAny o = false)
    ∧ ((reset rins u).2 = ResetOutcome.nanAbort rins.obs ↔ isnanAny rins.obs = true) := by
  refine ⟨⟨?_, step_snd_of_nan cfg ins s⟩, ?_, ⟨?_, reset_snd_of_nan rins u⟩⟩
  · intro habort
    cases h : isnanAny ins.obs
    · rw [step_snd_of_ok cfg ins s h] at habort
      exact StepOutcome.noConfusion habort
    · rfl
  · intro o r d ip hok
    cases h : isnanAny ins.obs
    · rw [step_snd_of_ok cfg ins s h] at hok
      simp only [StepOutcome.ok.injEq] at hok
      exact ⟨hok.1.symm, hok.1 ▸ h⟩
    · rw [step_snd_of_nan cfg ins s h] at hok
      exact StepOutcome.noConfusion hok
  · intro habort
    cases h : isnanAny rins.obs
    · rw [reset_snd_of_ok rins u h] at habort
      exact ResetOutcome.noConfusion habort
    · rfl

/-- Witness for the C4 amended theorem at the concrete sample data. -/
theorem nan_abort_only_wit :
    ((step cfg0 insNan0 envA).2 = StepOutcome.nanAbort insNan0.obs ↔
      isnanAny insNan0.obs = true)
    ∧ (∀ o r d ip, (step cfg0 insNan0 envA).2 = StepOutcome.ok o r d ip →
        o = insNan0.obs ∧ isnanAny o = false)
    ∧ ((reset rinsA envA).2 = ResetOutcome.nanAbort rinsA.obs ↔
        isnanAny rinsA.obs = true) :=
  nan_abort_only_amended cfg0 insNan0 envA rinsA envA

/-- C5: when `step` returns, `done` is true exactly when the incremented
timestep count exceeds `max_timestemps` or the reward shaper said done —
in particular the timestep condition forces `done = True` regardless of
the shaper — and the spec-modelled shaper termination check honours the
first-match precedence (1) timestep, (2) collision, (3) path end,
(4) corridor. -/
theorem termination_precedence (cfg : Config) (ins : StepInputs) (s : EnvState)
    (o : List FloatVal) (r : ℚ) (d : Bool) (ip : FloatVal) (c2 c3 c4 : Bool)
    (hok : (step cfg ins s).2 = StepOutcome.ok o r d ip) :
    (d = true ↔ (s.t_step + 1 > cfg.max_timestemps ∨ ins.reward_done = true))
    ∧ (s.t_step + 1 > cfg.max_timestemps → d = true)
    ∧ specTermCheck true c2 c3 c4 = some 1
    ∧ (c2 = true → specTermCheck false c2 c3 c4 = some 2)
    ∧ (c2 = false → c3 = true → specTermCheck false c2 c3 c4 = some 3)
    ∧ (c2 = false → c3 = false → c4 = true →
        specTermCheck false c2 c3 c4 = some 4) := by
  have hfalse : isnanAny ins.obs = false := by
    cases h : isnanAny ins.obs
    · rfl
    · rw [step_snd_of_nan cfg ins s h] at hok
      exact StepOutcome.noConfusion hok
  rw [step_snd_of_ok cfg ins s hfalse] at hok
  simp only [StepOutcome.ok.injEq] at hok
  obtain ⟨-, -, hd, -⟩ := hok
  refine ⟨?_, ?_, rfl, ?_, ?_, ?_⟩
  · rw [← hd]
    by_cases hts : s.t_step + 1 > cfg.max_timestemps
    · simp [hts]
    · simp [hts]
  · intro hts
    rw [← hd, if_pos hts]
  · intro h2
    simp [specTermCheck, h2]
  · intro h2 h3
    simp [specTermCheck, h2, h3]
  · intro h2 h3 h4
    simp [specTermCheck, h2, h3, h4]

/-- Witness for the C5 theorem at the concrete sample data. -/
theorem termination_precedence_wit :
    (step cfg0 insOk0 envA).2 =
      StepOutcome.ok insOk0.obs insOk0.reward_value false (FloatVal.val (1 / 5))
    ∧ ((false = true ↔ (envA.t_step + 1 > cfg0.max_timestemps ∨ insOk0.reward_done = true))
      ∧ (envA.t_step + 1 > cfg0.max_timestemps → false = true)
      ∧ specTermCheck true true true true = some 1
      ∧ (true = true → specTermCheck false true true true = some 2)
      ∧ (true = false → true = true → specTermCheck false true true true = some 3)
      ∧ (true = false → true = false → true = true →
          specTermCheck false true true true = some 4)) :=
  ⟨by with_unfolding_all rfl,
    termination_precedence cfg0 insOk0 envA insOk0.obs insOk0.reward_value false
      (FloatVal.val (1 / 5)) true true true (by with_unfolding_all rfl)⟩

/-- C6 counterexample: with a zero-length path, `step` does produce
progress `0`, but the fractional-progress diagnostic it places in the
`info` map is `prog/path.length = 0/0`, a division by zero that yields a
NaN diagnostic — refuting the claim that no division by zero is performed
anywhere in the step. -/
theorem degenerate_path_cex :
    envD.path_length = 0
    ∧ (step cfg0 insFar0 envD).1.path_prog = envD.path_prog ++ [0]
    ∧ (step cfg0 insFar0 envD).2 =
        StepOutcome.ok insFar0.obs insFar0.reward_value false FloatVal.nan :=
  ⟨rfl, by with_unfolding_all rfl, by with_unfolding_all rfl⟩

/-- C6 amended: if `path.length` is zero (and the path collaborator keeps
its closest-point arclength within `[0, path.length]`), the progress value
of the step is `0` — the clamping uses only `min`/`max`, no division — but
the fractional-progress diagnostic in the `info` map divides `prog` by
`path.length`, a division by zero producing a NaN diagnostic. -/
theorem degenerate_path_amended (cfg : Config) (ins : StepInputs) (s : EnvState)
    (hlen : s.path_length = 0) (h0 : 0 ≤ ins.closest_arclength)
    (h1 : ins.closest_arclength ≤ s.path_length) :
    (step cfg ins s).1.path_prog = s.path_prog ++ [0]
    ∧ (∀ o r d ip, (step cfg ins s).2 = StepOutcome.ok o r d ip →
        ip = FloatVal.nan) := by
  have hca : ins.closest_arclength = 0 := le_antisymm (hlen ▸ h1) h0
  have hprog : computeProg cfg ins s.max_path_prog s.path_length = 0 := by
    by_cases hc : ins.closest_point_distance < cfg.max_closest_point_distance ∨
        |ins.closest_point_heading_error| < cfg.max_closest_point_heading_error
    · simp only [computeProg]
      rw [if_pos hc]
      exact hca
    · simp only [computeProg]
      rw [if_neg hc, hlen]
      exact min_eq_right (le_max_left 0 _)
  constructor
  · rw [step_fst_path_prog, hprog]
  · intro o r d ip hok
    have hfalse : isnanAny ins.obs = false := by
      cases h : isnanAny ins.obs
      · rfl
      · rw [step_snd_of_nan cfg ins s h] at hok
        exact StepOutcome.noConfusion hok
    rw [step_snd_of_ok cfg ins s hfalse] at hok
    simp only [StepOutcome.ok.injEq] at hok
    obtain ⟨-, -, -, hip⟩ := hok
    rw [← hip, hprog, hlen]
    simp [floatDiv]

/-- Witness for the C6 amended theorem at the concrete sample data. -/
theorem degenerate_path_wit :
    (envD.path_length = 0 ∧ 0 ≤ insFar0.closest_arclength
      ∧ insFar0.closest_arclength ≤ envD.path_length)
    ∧ ((step cfg0 insFar0 envD).1.path_prog = envD.path_prog ++ [0]
      ∧ (∀ o r d ip, (step cfg0 insFar0 envD).2 = StepOutcome.ok o r d ip →
          ip = FloatVal.nan)) :=
  ⟨⟨rfl, of_decide_eq_true (by with_unfolding_all rfl),
    of_decide_eq_true (by with_unfolding_all rfl)⟩,
    degenerate_path_amended cfg0 insFar0 envD rfl
      (of_decide_eq_true (by with_unfolding_all rfl))
      (of_decide_eq_true (by with_unfolding_all rfl))⟩

/-- C8 counterexample: with one sector, the second state-feature slot
(index 1) of the declared bounds carries the ordinary range `[-1, 1]`, not
the extended `[-10000, 10000]` range, which instead sits at the last
state-feature slot (index `nstates - 1 = 6`) — refuting the claim that the
extended-range slot is the second state feature. -/
theorem obs_bounds_cex :
    (low_obs 1)[1]? = some (-1)
    ∧ (high_obs 1)[1]? = some 1
    ∧ (low_obs 1)[6]? = some (-10000)
    ∧ (high_obs 1)[6]? = some 10000 := by
  decide

/-- C8 amended: the declared observation bounds have length
`7 + 2 x n_sectors`; every slot carries `[-1, 1]` except the LAST state
feature slot (index `nstates - 1 = 6`, the arclength-progress-related
one), which carries `[-10000, 10000]`. -/
theorem obs_bounds_amended (n i : ℕ) (hi : i < nstates + n * 2) :
    (low_obs n).length = nstates + n * 2
    ∧ (high_obs n).length = nstates + n * 2
    ∧ (i ≠ nstates - 1 → (low_obs n)[i]? = some (-1) ∧ (high_obs n)[i]? = some 1)
    ∧ (low_obs n)[nstates - 1]? = some (-10000)
    ∧ (high_obs n)[nstates - 1]? = some 10000 := by
  have h6 : nstates - 1 < (List.replicate (nstates + n * 2) (1 : ℤ)).length := by
    rw [List.length_replicate]
    simp only [nstates]
    omega
  have h6l : nstates - 1 < (List.replicate (nstates + n * 2) (-1 : ℤ)).length := by
    rw [List.length_replicate]
    simp only [nstates]
    omega
  refine ⟨?_, ?_, ?_, ?_, ?_⟩
  · rw [low_obs, List.length_set, List.length_replicate]
  · rw [high_obs, List.length_set, List.length_replicate]
  · intro hne
    constructor
    · rw [low_obs, List.getElem?_set_ne (Ne.symm hne)]
      exact List.getElem?_replicate_of_lt hi
    · rw [high_obs, List.getElem?_set_ne (Ne.symm hne)]
      exact List.getElem?_replicate_of_lt hi
  · rw [low_obs]
    exact List.getElem?_set_self h6l
  · rw [high_obs]
    exact List.getElem?_set_self h6

/-- Witness for the C8 amended theorem at a concrete sector count. -/
theorem obs_bounds_wit :
    (0 < nstates + 1 * 2)
    ∧ ((low_obs 1).length = nstates + 1 * 2
      ∧ (high_obs 1).length = nstates + 1 * 2
      ∧ ((0 : ℕ) ≠ nstates - 1 → (low_obs 1)[0]? = some (-1) ∧ (high_obs 1)[0]? = some 1)
      ∧ (low_obs 1)[nstates - 1]? = some (-10000)
      ∧ (high_obs 1)[nstates - 1]? = some 10000) :=
  ⟨by decide, obs_bounds_amended 1 0 (by decide)⟩

lemma sensor_angles_getElem (cfg : Config) (i : ℕ) (a : ℚ)
    (h : (sensor_angles cfg)[i]? = some a) :
    i < nsensors cfg ∧ a = sensor_angle_coeff (nsensors cfg) i := by
  rw [sensor_angles, List.getElem?_map] at h
  by_cases hi : i < nsensors cfg
  · rw [List.getElem?_range hi] at h
    exact ⟨hi, (Option.some.inj h).symm⟩
  · have hnone : (List.range (nsensors cfg))[i]? = none :=
      List.getElem?_eq_none (by simpa [List.length_range] using Nat.le_of_not_lt hi)
    rw [hnone] at h
    simp at h

lemma sensor_angle_coeff_mem (n i : ℕ) (hi : i < n) :
    -(Real.pi / 2) < (sensor_angle_coeff n i : ℝ) * Real.pi
    ∧ (sensor_angle_coeff n i : ℝ) * Real.pi ≤ Real.pi / 2 := by
  have hpi := Real.pi_pos
  have hn : (0 : ℝ) < (n : ℝ) + 1 := by positivity
  have hc1 : (0 : ℝ) < ((i : ℝ) + 1) / ((n : ℝ) + 1) := by positivity
  have hc2 : ((i : ℝ) + 1) / ((n : ℝ) + 1) < 1 := by
    rw [div_lt_one hn]
    have hin : (i : ℝ) < (n : ℝ) := by exact_mod_cast hi
    linarith
  have hval : (sensor_angle_coeff n i : ℝ) = -(1 / 2) + ((i : ℝ) + 1) / ((n : ℝ) + 1) := by
    rw [sensor_angle_coeff]
    push_cast
    ring
  rw [hval]
  constructor
  · nlinarith [mul_pos hc1 hpi]
  · nlinarith [mul_lt_mul_of_pos_right hc2 hpi]

/-- C7: the sensor angles fixed at construction number exactly
`nsectors x sensors_per_sector`; any two of them differ by
`(j - i) x pi/(nsensors + 1)` (so the fan is uniformly spaced with pitch
`pi/(nsensors + 1)`); and every angle lies in the forward-facing arc
`(-pi/2, pi/2]` relative to vessel heading.  An angle is
`sensor_angle_coeff n i * pi` radians. -/
theorem sensor_fan_geometry (cfg : Config) :
    (sensor_angles cfg).length = cfg.n_sectors * cfg.n_sensors_per_sector
    ∧ (∀ i j : ℕ,
        (sensor_angle_coeff (nsensors cfg) j : ℝ) * Real.pi -
            (sensor_angle_coeff (nsensors cfg) i : ℝ) * Real.pi =
          (((j : ℝ) - (i : ℝ)) / ((nsensors cfg : ℝ) + 1)) * Real.pi)
    ∧ (∀ i : ℕ, ∀ a : ℚ, (sensor_angles cfg)[i]? = some a →
        -(Real.pi / 2) < (a : ℝ) * Real.pi ∧ (a : ℝ) * Real.pi ≤ Real.pi / 2) := by
  refine ⟨?_, ?_, ?_⟩
  · rw [sensor_angles, List.length_map, List.length_range, nsensors, Nat.mul_comm]
  · intro i j
    have hn : ((nsensors cfg : ℝ) + 1) ≠ 0 := by positivity
    rw [sensor_angle_coeff, sensor_angle_coeff]
    push_cast
    field_simp
    ring
  · intro i a h
    rcases sensor_angles_getElem cfg i a h with ⟨hi, ha⟩
    rw [ha]
    exact sensor_angle_coeff_mem (nsensors cfg) i hi

/-- Witness for the C7 theorem at the concrete sample configuration. -/
theorem sensor_fan_geometry_wit :
    (sensor_angles cfg0).length = cfg0.n_sectors * cfg0.n_sensors_per_sector
    ∧ (∀ i j : ℕ,
        (sensor_angle_coeff (nsensors cfg0) j : ℝ) * Real.pi -
            (sensor_angle_coeff (nsensors cfg0) i : ℝ) * Real.pi =
          (((j : ℝ) - (i : ℝ)) / ((nsensors cfg0 : ℝ) + 1)) * Real.pi)
    ∧ (∀ i : ℕ, ∀ a : ℚ, (sensor_angles cfg0)[i]? = some a →
        -(Real.pi / 2) < (a : ℝ) * Real.pi ∧ (a : ℝ) * Real.pi ≤ Real.pi / 2) :=
  sensor_fan_geometry cfg0

end GymAuv
